import Mathlib

/-!
Verification of the simulated serverless tournament backend
(MockAWS queue store, matchmaker lambda, API gateway).

The Python source is embedded shallowly: the queue files become a map
from queue name to message list, the gateway's mutable dictionaries
become explicit state records threaded through the routing function,
and Python exceptions raised by handlers become an explicit outcome
constructor that the gateway's try/except translates to a match.
-/

namespace Provadomarlon

/-! ### Durable queue store (`MockAWS.send_sqs` / `MockAWS.receive_sqs`)

Each queue is a JSON file holding one array of messages; `send_sqs`
reads the file, appends, and rewrites it, `receive_sqs` pops index 0.
The whole store is modelled as a function from queue name to the list
currently in that queue's file (a missing file is created holding `[]`,
so absence and the empty list coincide). -/

def Store (α : Type) := String → List α

def emptyStore (α : Type) : Store α := fun _ => []

/-- Model of `MockAWS.send_sqs`: append `m` at the tail of queue `q`. -/
def send_sqs {α : Type} (q : String) (m : α) (s : Store α) : Store α :=
  fun q' => if q' = q then s q' ++ [m] else s q'

/-- Model of `MockAWS.receive_sqs`: pop and return the head of queue `q`,
or `none` when the queue is empty. -/
def receive_sqs {α : Type} (q : String) (s : Store α) : Option α × Store α :=
  match s q with
  | [] => (none, s)
  | m :: rest => (some m, fun q' => if q' = q then rest else s q')

/-- Send a list of messages to queue `q`, in list order. -/
def sendAll {α : Type} (q : String) : List α → Store α → Store α
  | [], s => s
  | m :: ms, s => sendAll q ms (send_sqs q m s)

/-- Perform `n` successive receives on queue `q`, collecting the results. -/
def drain {α : Type} (q : String) : Nat → Store α → List (Option α) × Store α
  | 0, s => ([], s)
  | n + 1, s =>
    let r := receive_sqs q s
    let rest := drain q n r.2
    (r.1 :: rest.1, rest.2)

theorem drain_succ {α : Type} (q : String) (n : Nat) (s : Store α) :
    (drain q (n + 1) s).1 =
      (receive_sqs q s).1 :: (drain q n (receive_sqs q s).2).1 := rfl

theorem send_sqs_apply {α : Type} (q : String) (m : α) (s : Store α) :
    send_sqs q m s q = s q ++ [m] := by
  simp [send_sqs]

theorem sendAll_apply {α : Type} (q : String) (ms : List α) (s : Store α) :
    sendAll q ms s q = s q ++ ms := by
  induction ms generalizing s with
  | nil => simp [sendAll]
  | cons m ms ih => simp [sendAll, ih, send_sqs]

theorem drain_of_queue_eq {α : Type} (q : String) (l : List α) (s : Store α)
    (h : s q = l) :
    (drain q (l.length + 1) s).1 = l.map some ++ [none] := by
  induction l generalizing s with
  | nil =>
    have h1 : receive_sqs q s = (none, s) := by
      simp [receive_sqs, h]
    simp [drain, h1]
  | cons m rest ih =>
    have h1 : receive_sqs q s = (some m, fun q' => if q' = q then rest else s q') := by
      simp [receive_sqs, h]
    have hnext : (fun q' : String => if q' = q then rest else s q') q = rest := by
      simp
    rw [List.length_cons, drain_succ, h1]
    simp only [List.map_cons, List.cons_append]
    rw [ih _ hnext]

/-! ### Interleaved concurrent sends

`send_sqs` performs two distinct file operations: it first reads the
whole queue file (`json.loads(file_path.read_text())`), then writes the
file back with the message appended (`file_path.write_text(...)`). No
lock is taken between the two. A producer is therefore a two-step
program over the shared file; a schedule interleaves the steps of
several producers, each sending one message. -/

inductive ProdPhase (α : Type) where
  | ready
  | readDone (buf : List α)
  | done
deriving DecidableEq

structure Producer (α : Type) where
  msg : α
  phase : ProdPhase α
deriving DecidableEq

structure SendSystem (α : Type) where
  file : List α
  producers : List (Producer α)
deriving DecidableEq

/-- One step of `send_sqs` by a single producer: `ready` reads the file
into a local buffer; `readDone` writes back the buffered contents with
the producer's message appended. -/
def stepProducer {α : Type} (file : List α) (p : Producer α) : List α × Producer α :=
  match p.phase with
  | .ready => (file, { p with phase := .readDone file })
  | .readDone buf => (buf ++ [p.msg], { p with phase := .done })
  | .done => (file, p)

def schedStep {α : Type} (sys : SendSystem α) (i : Nat) : SendSystem α :=
  match sys.producers[i]? with
  | none => sys
  | some p =>
    let r := stepProducer sys.file p
    { file := r.1, producers := sys.producers.set i r.2 }

/-- Run the producers' steps in the order given by the schedule. -/
def runSched {α : Type} (sys : SendSystem α) : List Nat → SendSystem α
  | [] => sys
  | i :: rest => runSched (schedStep sys i) rest

/-! ### `lambda_matchmaker`

The lambda shuffles the athlete list (`random.shuffle`), then walks it
two at a time: a full pair becomes a regular match, a trailing single
athlete becomes a bye match with round "Avanço Automático" and a
"-BYE"-suffixed id. The random shuffle is modelled as an explicit
function parameter; the claims only need it to preserve length. -/

structure Confronto (α : Type) where
  luta_id : String
  atletas : List α
  round : String
deriving DecidableEq

def lutaId (i : Nat) : String := "LUTA-" ++ toString i

/-- The pairing loop of `lambda_matchmaker`, with `i` the 1-based pair
counter (`idx // 2 + 1` in the source). -/
def confrontosFrom {α : Type} (i : Nat) : List α → List (Confronto α)
  | [] => []
  | [a] => [{ luta_id := lutaId i ++ "-BYE", atletas := [a], round := "Avanço Automático" }]
  | a :: b :: rest =>
    { luta_id := lutaId i, atletas := [a, b], round := "Classificatórias" } ::
      confrontosFrom (i + 1) rest

def isBye {α : Type} (c : Confronto α) : Bool := c.round == "Avanço Automático"

structure MatchmakerResult (α : Type) where
  confrontos : List (Confronto α)
  gerado_em : Option String
deriving DecidableEq

/-- Model of `lambda_matchmaker`: fewer than two athletes yields no matches (and
no timestamp field); otherwise the shuffled list is paired up. -/
def lambda_matchmaker {α : Type} (shuffle : List α → List α) (nowIso : String)
    (atletas : List α) : MatchmakerResult α :=
  if atletas.length < 2 then { confrontos := [], gerado_em := none }
  else { confrontos := confrontosFrom 1 (shuffle atletas),
         gerado_em := some (nowIso ++ "Z") }

theorem twoStepInd {α : Type} {motive : List α → Prop} (h0 : motive [])
    (h1 : ∀ a, motive [a]) (h2 : ∀ a b rest, motive rest → motive (a :: b :: rest)) :
    ∀ l, motive l
  | [] => h0
  | [a] => h1 a
  | a :: b :: rest => h2 a b rest (twoStepInd h0 h1 h2 rest)

theorem confrontosFrom_length {α : Type} (l : List α) :
    ∀ i, (confrontosFrom i l).length = (l.length + 1) / 2 := by
  induction l using twoStepInd with
  | h0 => intro i; simp [confrontosFrom]
  | h1 a => intro i; simp [confrontosFrom]
  | h2 a b rest ih =>
    intro i
    simp only [confrontosFrom, List.length_cons, ih]
    omega

theorem confrontosFrom_byes {α : Type} (l : List α) :
    ∀ i, (confrontosFrom i l).countP isBye = l.length % 2 := by
  induction l using twoStepInd with
  | h0 => intro i; simp [confrontosFrom]
  | h1 a => intro i; simp [confrontosFrom, List.countP_cons, isBye]
  | h2 a b rest ih =>
    intro i
    have hne : ¬ ("Classificatórias" = "Avanço Automático") := by decide
    simp only [confrontosFrom, List.countP_cons, List.length_cons, ih, isBye]
    simp only [beq_iff_eq, hne, if_false]
    omega

/-! ### `APIGateway`

The gateway's mutable state is `request_log` (a list of dict entries)
and `rate_limit` (a dict from client IP to a list of request
timestamps, modelled as an association list to keep the dict's key set
and insertion order observable). `time.time()` and
`datetime.utcnow().isoformat()` are passed in as explicit `now` /
`nowIso` arguments. -/

def rate_limit_window : Int := 60

def max_requests_per_window : Nat := 100

def rlLookup (rl : List (String × List Int)) (ip : String) : Option (List Int) :=
  match rl with
  | [] => none
  | (k, v) :: rest => if k = ip then some v else rlLookup rest ip

/-- Python dict assignment: replace the value of an existing key in
place, or append a new key at the end. -/
def rlUpdate (rl : List (String × List Int)) (ip : String) (v : List Int) :
    List (String × List Int) :=
  match rl with
  | [] => [(ip, v)]
  | (k, w) :: rest => if k = ip then (ip, v) :: rest else (k, w) :: rlUpdate rest ip v

/-- The purge inside `_check_rate_limit`: keep only the timestamps `ts`
with `now - ts < rate_limit_window` (a missing key was just initialised
to `[]`). -/
def purged (rl : List (String × List Int)) (ip : String) (now : Int) : List Int :=
  ((rlLookup rl ip).getD []).filter (fun ts => now - ts < rate_limit_window)

/-- Model of `APIGateway._check_rate_limit`: purge, then reject when the
remaining count has reached the ceiling, otherwise record `now` and
admit. Both branches store the purged list back into the dict. -/
def check_rate_limit (client_ip : String) (now : Int)
    (rl : List (String × List Int)) : Bool × List (String × List Int) :=
  if max_requests_per_window ≤ (purged rl client_ip now).length then
    (false, rlUpdate rl client_ip (purged rl client_ip now))
  else
    (true, rlUpdate rl client_ip (purged rl client_ip now ++ [now]))

structure LogEntry where
  timestamp : String
  method : String
  path : String
  client_ip : String
  status : Nat
deriving DecidableEq

structure GatewayState where
  request_log : List LogEntry
  rate_limit : List (String × List Int)
deriving DecidableEq

def initGateway : GatewayState := { request_log := [], rate_limit := [] }

/-- Model of `APIGateway._log_request`: append one entry whose timestamp is
`datetime.utcnow().isoformat() + "Z"`. -/
def log_request (method path client_ip : String) (status : Nat) (nowIso : String)
    (s : GatewayState) : GatewayState :=
  { s with request_log := s.request_log ++
      [{ timestamp := nowIso ++ "Z", method := method, path := path,
         client_ip := client_ip, status := status }] }

/-- Model of `APIGateway._check_auth`: looks up "X-API-Key", falling back to
"Authorization", but returns `True` whether or not a credential is
present. -/
def check_auth (headers : String → Option String) : Bool :=
  match headers "X-API-Key" with
  | some _ => true
  | none =>
    match headers "Authorization" with
    | some _ => true
    | none => true

/-- A handler takes no arguments, so its behaviour is one of: return a
`(body, status)` tuple, return a bare body, or raise an exception with
message `msg`. -/
inductive HandlerOutcome (β : Type) where
  | tuple (body : β) (status : Nat)
  | bare (body : β)
  | raise (msg : String)
deriving DecidableEq

inductive RespBody (β : Type) where
  | handler (b : β)
  | erro (msg : String)
deriving DecidableEq

structure Resp (β : Type) where
  status_code : Nat
  body : RespBody β
deriving DecidableEq

/-- Model of `response = handler()` together with the status extraction
`response[1] if isinstance(response, tuple) else 200`; a raise becomes
an `Except.error` carrying `str(e)`. -/
def runHandler {β : Type} : HandlerOutcome β → Except String (β × Nat)
  | .tuple b st => .ok (b, st)
  | .bare b => .ok (b, 200)
  | .raise m => .error m

/-- The `try`/`except` block of `route`: on success log the extracted
status and return `{status_code, body}`; on an exception log 500 and
return the error body built from `str(e)`. -/
def handlerBranch {β : Type} (method path client_ip : String)
    (handler : HandlerOutcome β) (nowIso : String) (s : GatewayState) :
    Resp β × GatewayState :=
  match runHandler handler with
  | .ok (b, st) =>
    ({ status_code := st, body := .handler b },
     log_request method path client_ip st nowIso s)
  | .error m =>
    ({ status_code := 500, body := .erro ("Erro interno do servidor: " ++ m) },
     log_request method path client_ip 500 nowIso s)

/-- Model of `APIGateway.route`: rate-limit check (which always rewrites the
client's timestamp list), then auth check, then handler invocation. -/
def route {β : Type} (method path : String) (handler : HandlerOutcome β)
    (client_ip : String) (headers : String → Option String) (now : Int)
    (nowIso : String) (s : GatewayState) : Resp β × GatewayState :=
  if (check_rate_limit client_ip now s.rate_limit).1 = false then
    ({ status_code := 429, body := .erro "Rate limit excedido. Tente novamente mais tarde." },
     log_request method path client_ip 429 nowIso
       { s with rate_limit := (check_rate_limit client_ip now s.rate_limit).2 })
  else if check_auth headers = false then
    ({ status_code := 401, body := .erro "Não autorizado. Forneça credenciais válidas." },
     log_request method path client_ip 401 nowIso
       { s with rate_limit := (check_rate_limit client_ip now s.rate_limit).2 })
  else
    handlerBranch method path client_ip handler nowIso
      { s with rate_limit := (check_rate_limit client_ip now s.rate_limit).2 }

structure Stats where
  total_requests : Nat
  requests_last_hour : Nat
  status_counts : List (Nat × Nat)
  active_clients : Nat
deriving DecidableEq

def bumpStatus (counts : List (Nat × Nat)) (st : Nat) : List (Nat × Nat) :=
  match counts with
  | [] => [(st, 1)]
  | (k, c) :: rest => if k = st then (k, c + 1) :: rest else (k, c) :: bumpStatus rest st

/-- Model of `APIGateway.get_stats`: `requests_last_hour` counts the entries
whose `timestamp` field is truthy — the filter never compares against
the clock. -/
def get_stats (s : GatewayState) : Stats :=
  { total_requests := s.request_log.length
  , requests_last_hour := (s.request_log.filter (fun r => r.timestamp != "")).length
  , status_counts := s.request_log.foldl (fun acc r => bumpStatus acc r.status) []
  , active_clients := s.rate_limit.length }

structure RouteCall (β : Type) where
  method : String
  path : String
  handler : HandlerOutcome β
  client_ip : String
  headers : String → Option String
  now : Int
  nowIso : String

def runRoutes {β : Type} : List (RouteCall β) → GatewayState → GatewayState
  | [], s => s
  | c :: cs, s =>
    runRoutes cs (route c.method c.path c.handler c.client_ip c.headers c.now c.nowIso s).2

/-- Every log entry so far has a truthy (non-empty) timestamp. -/
def timestamped (s : GatewayState) : Prop :=
  ∀ e ∈ s.request_log, e.timestamp ≠ ""

/-! ### Supporting lemmas -/

theorem check_auth_true (headers : String → Option String) :
    check_auth headers = true := by
  unfold check_auth
  cases headers "X-API-Key" with
  | some _ => rfl
  | none =>
    cases headers "Authorization" with
    | some _ => rfl
    | none => rfl

theorem append_Z_ne_empty (s : String) : s ++ "Z" ≠ "" := by
  intro h
  have h1 := congrArg String.length h
  have hz : ("Z" : String).length = 1 := rfl
  have he : ("" : String).length = 0 := rfl
  rw [String.length_append, hz, he] at h1
  omega

theorem log_request_timestamped (method path client_ip : String) (st : Nat)
    (nowIso : String) (s : GatewayState) (h : timestamped s) :
    timestamped (log_request method path client_ip st nowIso s) := by
  intro e he
  simp only [log_request, List.mem_append, List.mem_singleton] at he
  rcases he with he | he
  · exact h e he
  · subst he
    exact append_Z_ne_empty nowIso

theorem handlerBranch_timestamped {β : Type} (method path client_ip : String)
    (handler : HandlerOutcome β) (nowIso : String) (s : GatewayState)
    (h : timestamped s) :
    timestamped (handlerBranch method path client_ip handler nowIso s).2 := by
  cases handler with
  | tuple b st => exact log_request_timestamped _ _ _ _ _ _ h
  | bare b => exact log_request_timestamped _ _ _ _ _ _ h
  | raise m => exact log_request_timestamped _ _ _ _ _ _ h

theorem route_timestamped {β : Type} (method path : String)
    (handler : HandlerOutcome β) (client_ip : String)
    (headers : String → Option String) (now : Int) (nowIso : String)
    (s : GatewayState) (h : timestamped s) :
    timestamped (route method path handler client_ip headers now nowIso s).2 := by
  unfold route
  split
  · exact log_request_timestamped _ _ _ _ _ _ h
  · split
    · exact log_request_timestamped _ _ _ _ _ _ h
    · exact handlerBranch_timestamped _ _ _ _ _ _ h

theorem runRoutes_timestamped {β : Type} (calls : List (RouteCall β))
    (s : GatewayState) (h : timestamped s) :
    timestamped (runRoutes calls s) := by
  induction calls generalizing s with
  | nil => exact h
  | cons c cs ih => exact ih _ (route_timestamped _ _ _ _ _ _ _ _ h)

/-! ### Claim theorems -/

/-- C1: sending N messages to queue Q (whose file currently holds the empty
array) and then performing N+1 receives returns exactly the N sent payloads,
in send order, followed by the no-message value `none`. -/
theorem sqs_fifo_roundtrip {α : Type} (Q : String) (msgs : List α) (s : Store α)
    (h : s Q = []) :
    (drain Q (msgs.length + 1) (sendAll Q msgs s)).1 = msgs.map some ++ [none] := by
  apply drain_of_queue_eq
  rw [sendAll_apply, h, List.nil_append]

theorem sqs_fifo_roundtrip_witness :
    (drain "lutas" 4 (sendAll "lutas" [10, 20, 30] (emptyStore Nat))).1 =
      [some 10, some 20, some 30, none] := by
  have h := sqs_fifo_roundtrip "lutas" [10, 20, 30] (emptyStore Nat) rfl
  simpa using h

/-- C2: a single rate-limit check first purges the client's timestamps that
have left the window, admits (and appends `now`) iff the post-purge count is
strictly below the ceiling, rejects (appending nothing beyond the purge)
otherwise, and always admits a client key with no stored history. -/
theorem rate_limit_check_spec (ip : String) (now : Int)
    (rl : List (String × List Int)) :
    ((check_rate_limit ip now rl).1 = true ↔
       (purged rl ip now).length < max_requests_per_window) ∧
    (check_rate_limit ip now rl).2 =
      rlUpdate rl ip (purged rl ip now ++
        (if (purged rl ip now).length < max_requests_per_window then [now] else [])) ∧
    (rlLookup rl ip = none → (check_rate_limit ip now rl).1 = true) := by
  refine ⟨?_, ?_, ?_⟩
  · by_cases hc : max_requests_per_window ≤ (purged rl ip now).length
    · simp only [check_rate_limit, if_pos hc]
      constructor
      · intro hfalse; cases hfalse
      · intro hlt; omega
    · simp only [check_rate_limit, if_neg hc]
      constructor
      · intro _; omega
      · intro _; trivial
  · by_cases hc : max_requests_per_window ≤ (purged rl ip now).length
    · have hlt : ¬ (purged rl ip now).length < max_requests_per_window := by omega
      simp [check_rate_limit, hc, hlt]
    · have hlt : (purged rl ip now).length < max_requests_per_window := by omega
      simp [check_rate_limit, hc, hlt]
  · intro h
    have hp : purged rl ip now = [] := by simp [purged, h]
    simp [check_rate_limit, hp, max_requests_per_window]

theorem rate_limit_check_spec_witness :
    (check_rate_limit "10.0.0.1" 0 []).1 = true :=
  (rate_limit_check_spec "10.0.0.1" 0 []).2.2 rfl

/-- C3 (amended): a raising handler is caught at the gateway — the response is
status 500 with the uniform error body and the log gains a status-500 entry —
and a 500 status can arise only from this failure branch or from a handler
that itself returns the tuple status 500. -/
theorem route_handler_exception_caught {β : Type} (method path client_ip : String)
    (headers : String → Option String) (now : Int) (nowIso : String)
    (s : GatewayState) (m : String)
    (hpass : (check_rate_limit client_ip now s.rate_limit).1 = true) :
    (route (β := β) method path (HandlerOutcome.raise m) client_ip headers now nowIso s).1 =
      { status_code := 500, body := .erro ("Erro interno do servidor: " ++ m) } ∧
    (route (β := β) method path (HandlerOutcome.raise m) client_ip headers now nowIso s).2.request_log =
      s.request_log ++ [{ timestamp := nowIso ++ "Z", method := method, path := path,
                          client_ip := client_ip, status := 500 }] ∧
    (∀ h : HandlerOutcome β,
      (route method path h client_ip headers now nowIso s).1.status_code = 500 →
        (∃ m', h = .raise m') ∨ (∃ b, h = .tuple b 500)) := by
  refine ⟨?_, ?_, ?_⟩
  · simp [route, hpass, check_auth_true, handlerBranch, runHandler]
  · simp [route, hpass, check_auth_true, handlerBranch, runHandler, log_request]
  · intro h hs
    cases h with
    | tuple b st =>
      right
      refine ⟨b, ?_⟩
      have hst : st = 500 := by
        simpa [route, hpass, check_auth_true, handlerBranch, runHandler] using hs
      rw [hst]
    | bare b =>
      exfalso
      simp [route, hpass, check_auth_true, handlerBranch, runHandler] at hs
    | raise m' => exact Or.inl ⟨m', rfl⟩

theorem route_handler_exception_caught_witness :
    (route "POST" "/y" (HandlerOutcome.raise (β := Nat) "boom") "1.2.3.4"
        (fun _ => none) 0 "t" initGateway).1 =
      { status_code := 500,
        body := RespBody.erro ("Erro interno do servidor: " ++ "boom") } :=
  (route_handler_exception_caught (β := Nat) "POST" "/y" "1.2.3.4"
    (fun _ => none) 0 "t" initGateway "boom" rfl).1

/-- C3 counterexample: a handler that returns the tuple `(0, 500)` — raising
no exception — also makes `route` return status_code 500, through the normal
branch: the body is the handler's own body, not a gateway error body. -/
theorem route_status500_without_exception :
    (route "GET" "/x" (HandlerOutcome.tuple (0 : Nat) 500) "1.2.3.4"
        (fun _ => none) 0 "t" initGateway).1 =
      { status_code := 500, body := RespBody.handler 0 } := by
  rfl

/-- C4: the 500 error body embeds `str(e)` verbatim — the raised message
"boom" appears inside the response body returned to the client, so internal
exception text does leak. -/
theorem route_leaks_exception_text :
    (route "POST" "/r" (HandlerOutcome.raise (β := Nat) "boom") "c"
        (fun _ => none) 0 "t" initGateway).1.body =
      RespBody.erro ("Erro interno do servidor: " ++ "boom") := by
  rfl

/-- C5: a rate-limited request is answered 429 with the rate-limit error
body and logged with status 429, and the result does not depend on the
handler — the handler is never invoked. -/
theorem route_rate_limited {β : Type} (method path : String)
    (handler : HandlerOutcome β) (client_ip : String)
    (headers : String → Option String) (now : Int) (nowIso : String)
    (s : GatewayState)
    (hrej : (check_rate_limit client_ip now s.rate_limit).1 = false) :
    route method path handler client_ip headers now nowIso s =
      ({ status_code := 429,
         body := .erro "Rate limit excedido. Tente novamente mais tarde." },
       { request_log := s.request_log ++
           [{ timestamp := nowIso ++ "Z", method := method, path := path,
              client_ip := client_ip, status := 429 }],
         rate_limit := (check_rate_limit client_ip now s.rate_limit).2 }) := by
  simp [route, hrej, log_request]

theorem route_rate_limited_witness :
    (route "GET" "/p" (HandlerOutcome.bare (0 : Nat)) "c" (fun _ => none) 0 "t"
        { request_log := [], rate_limit := [("c", List.replicate 100 0)] }).1.status_code
      = 429 := by
  have h := route_rate_limited "GET" "/p" (HandlerOutcome.bare (0 : Nat)) "c"
    (fun _ => none) 0 "t"
    { request_log := [], rate_limit := [("c", List.replicate 100 0)] } (by rfl)
  rw [h]

/-- C6: the auth check accepts every headers mapping (credential present or
absent), so an admitted request always proceeds to the handler branch — the
401 branch of `route` is never taken. -/
theorem auth_permissive {β : Type} (method path : String)
    (handler : HandlerOutcome β) (client_ip : String)
    (headers : String → Option String) (now : Int) (nowIso : String)
    (s : GatewayState)
    (hpass : (check_rate_limit client_ip now s.rate_limit).1 = true) :
    check_auth headers = true ∧
    route method path handler client_ip headers now nowIso s =
      handlerBranch method path client_ip handler nowIso
        { s with rate_limit := (check_rate_limit client_ip now s.rate_limit).2 } := by
  refine ⟨check_auth_true headers, ?_⟩
  simp [route, hpass, check_auth_true]

theorem auth_permissive_witness :
    check_auth (fun _ => none) = true ∧
    route "GET" "/s" (HandlerOutcome.bare (7 : Nat)) "c" (fun _ => none) 0 "t"
        initGateway =
      handlerBranch "GET" "/s" "c" (HandlerOutcome.bare 7) "t"
        { initGateway with
            rate_limit := (check_rate_limit "c" 0 initGateway.rate_limit).2 } :=
  auth_permissive "GET" "/s" (HandlerOutcome.bare 7) "c" (fun _ => none) 0 "t"
    initGateway rfl

/-- C7: for n ≥ 2 athletes and any length-preserving shuffle, the matchmaker
produces exactly ceil(n/2) matches, of which exactly n % 2 (one when n is
odd, none when n is even) are tagged as byes. -/
theorem matchmaker_counts {α : Type} (shuffle : List α → List α) (nowIso : String)
    (atletas : List α) (h2 : 2 ≤ atletas.length)
    (hs : (shuffle atletas).length = atletas.length) :
    (lambda_matchmaker shuffle nowIso atletas).confrontos.length =
      (atletas.length + 1) / 2 ∧
    (lambda_matchmaker shuffle nowIso atletas).confrontos.countP isBye =
      atletas.length % 2 := by
  have hn : ¬ atletas.length < 2 := by omega
  constructor
  · simp [lambda_matchmaker, hn, confrontosFrom_length, hs]
  · simp [lambda_matchmaker, hn, confrontosFrom_byes, hs]

theorem matchmaker_counts_witness :
    (lambda_matchmaker (fun l : List Nat => l) "t" [1, 2, 3, 4, 5]).confrontos.length
        = 3 ∧
    (lambda_matchmaker (fun l : List Nat => l) "t" [1, 2, 3, 4, 5]).confrontos.countP
        isBye = 1 := by
  have h := matchmaker_counts (fun l : List Nat => l) "t" [1, 2, 3, 4, 5]
    (by decide) rfl
  simpa using h

/-- C8: for an admitted, authenticated request, a handler returning a
`(body, status)` tuple yields that status and body, and a handler returning a
bare body yields status 200 with that body. -/
theorem route_normal_response {β : Type} (method path client_ip : String)
    (headers : String → Option String) (now : Int) (nowIso : String)
    (s : GatewayState) (b : β) (st : Nat)
    (hpass : (check_rate_limit client_ip now s.rate_limit).1 = true) :
    (route method path (HandlerOutcome.tuple b st) client_ip headers now nowIso s).1 =
      { status_code := st, body := RespBody.handler b } ∧
    (route method path (HandlerOutcome.bare b) client_ip headers now nowIso s).1 =
      { status_code := 200, body := RespBody.handler b } := by
  constructor <;> simp [route, hpass, check_auth_true, handlerBranch, runHandler]

theorem route_normal_response_witness :
    (route "POST" "/ok" (HandlerOutcome.tuple true 201) "c" (fun _ => none) 0 "t"
        initGateway).1 = { status_code := 201, body := RespBody.handler true } ∧
    (route "POST" "/ok" (HandlerOutcome.bare true) "c" (fun _ => none) 0 "t"
        initGateway).1 = { status_code := 200, body := RespBody.handler true } :=
  route_normal_response "POST" "/ok" "c" (fun _ => none) 0 "t" initGateway true 201 rfl

/-- C9: two producers that interleave their `send_sqs` steps as
read₀, read₁, write₀, write₁ both complete, yet the final queue file holds
only the second message — the unlocked read-modify-write loses the first
concurrent append. -/
theorem send_sqs_lost_update :
    runSched { file := ([] : List Nat),
               producers := [{ msg := 1, phase := .ready },
                             { msg := 2, phase := .ready }] }
        [0, 1, 0, 1] =
      { file := [2],
        producers := [{ msg := 1, phase := .done },
                      { msg := 2, phase := .done }] } := by
  rfl

/-- C10: after any sequence of route calls starting from a fresh gateway,
`get_stats` reports `requests_last_hour` equal to `total_requests`: the
filter only checks that the timestamp field is truthy, which every entry
written by `_log_request` satisfies. -/
theorem get_stats_last_hour_equals_total {β : Type} (calls : List (RouteCall β)) :
    (get_stats (runRoutes calls initGateway)).requests_last_hour =
      (get_stats (runRoutes calls initGateway)).total_requests := by
  have h : timestamped (runRoutes calls initGateway) := by
    apply runRoutes_timestamped
    intro e he
    simp [initGateway] at he
  simp only [get_stats]
  rw [List.filter_eq_self.mpr]
  intro e he
  have h1 := h e he
  simpa using h1

end Provadomarlon
